import Mathlib

/-!
Verification of the gemini-worker repository's job lifecycle and
retry/compensation state machine, shallowly embedded from the JavaScript
sources. The repository contains several near-duplicate worker variants;
each definition below names the variant (source file and lines) it embeds.
-/

namespace GeminiWorker

/-- Errors thrown inside the worker: JavaScript error objects carrying an
optional HTTP-like status code (read as `err.status`) and a message. -/
structure GError where
  status : Option Nat
  msg : String
deriving DecidableEq

/-! ## Retry controllers

Two distinct implementations of `callGeminiWithRetry` exist in the sources.

Variant "Index" (src/index.js lines 436-455, identical in src/unnamed/part_002
lines 29-50): `maxRetries = 3` is a constant, the retryable status set is
503/429/500, and the catch block starts with
`if (i === maxRetries - 1) throw err;` so the last observed error is re-thrown
on exhaustion.

Variant "Part3" (src/unnamed/part_003 lines 25-41): `maxRetries` is 6 for the
pro tier and 3 otherwise, the retryable set is 503/429 only, and there is no
last-attempt re-throw: when the final attempt fails with a retryable status the
loop body sleeps, continues, the loop condition fails, and the function returns
undefined.

The backoff sleep has no observable effect on the values computed, so it is
not modelled; what is modelled is the control flow, the number of invocations
of `fn`, and the outcome. `op k` denotes the outcome of the `k`-th invocation
of `fn` (0-based): invocations are deterministic functions of their position
in the attempt sequence.
-/

/-- Retryable-status test of the Index variant
(`err.status === 503 || err.status === 429 || err.status === 500`,
src/index.js line 446). -/
def retryableIndex (e : GError) : Bool :=
  e.status == some 503 || e.status == some 429 || e.status == some 500

/-- Retryable-status test of the Part3 variant
(`err.status === 503 || err.status === 429`, src/unnamed/part_003 line 32). -/
def retryablePart3 (e : GError) : Bool :=
  e.status == some 503 || e.status == some 429

/-- Outcome of a `callGeminiWithRetry` call: a returned value, a thrown error,
or falling off the end of the loop (the JavaScript function then returns
undefined without throwing). -/
inductive RetryOutcome (α : Type) where
  | success : α → RetryOutcome α
  | raised : GError → RetryOutcome α
  | noValue : RetryOutcome α
deriving DecidableEq

/-- The for-loop of the Index variant (src/index.js lines 439-453), with the
number `rem` of remaining iterations as the structural argument; the loop
variable is `i` and the loop runs while `i < maxRetries`, i.e. while
`rem = maxRetries - i` is positive. Returns the outcome together with the
number of invocations of `fn` performed from iteration `i` on. -/
def retryLoopIndex (op : Nat → Except GError α) (maxRetries : Nat) :
    Nat → Nat → RetryOutcome α × Nat
  | 0, _ => (.noValue, 0)
  | rem + 1, i =>
    match op i with
    | .ok v => (.success v, 1)
    | .error e =>
      if i = maxRetries - 1 then (.raised e, 1)
      else if retryableIndex e then
        let r := retryLoopIndex op maxRetries rem (i + 1)
        (r.1, r.2 + 1)
      else (.raised e, 1)

/-- `callGeminiWithRetry` of src/index.js lines 436-455: `maxRetries` is the
constant 3; `isPro` only selects the base delay, which has no observable
effect on the outcome. -/
def callGeminiWithRetryIndex (op : Nat → Except GError α) (_isPro : Bool) :
    RetryOutcome α × Nat :=
  retryLoopIndex op 3 3 0

/-- The for-loop of the Part3 variant (src/unnamed/part_003 lines 29-40),
same encoding as `retryLoopIndex`. There is no last-attempt re-throw: a
retryable error on the final iteration leads to `continue` and then loop
exit. -/
def retryLoopPart3 (op : Nat → Except GError α) (maxRetries : Nat) :
    Nat → Nat → RetryOutcome α × Nat
  | 0, _ => (.noValue, 0)
  | rem + 1, i =>
    match op i with
    | .ok v => (.success v, 1)
    | .error e =>
      if retryablePart3 e then
        let r := retryLoopPart3 op maxRetries rem (i + 1)
        (r.1, r.2 + 1)
      else (.raised e, 1)

/-- Attempt budget of the Part3 variant:
`const maxRetries = isPro ? 6 : 3` (src/unnamed/part_003 line 26). -/
def maxRetriesPart3 (isPro : Bool) : Nat := if isPro then 6 else 3

/-- Base delay of the Part3 variant:
`const baseDelay = isPro ? 5000 : 2000` (src/unnamed/part_003 line 27). -/
def baseDelayPart3 (isPro : Bool) : Nat := if isPro then 5000 else 2000

/-- Attempt budget of the Index variant: `const maxRetries = 3`
(src/index.js line 437), independent of the tier. -/
def maxRetriesIndex (_isPro : Bool) : Nat := 3

/-- Base delay of the Index variant:
`const baseDelay = isPro ? 5000 : 2000` (src/index.js line 438). -/
def baseDelayIndex (isPro : Bool) : Nat := if isPro then 5000 else 2000

/-- `callGeminiWithRetry` of src/unnamed/part_003 lines 25-41. -/
def callGeminiWithRetryPart3 (op : Nat → Except GError α) (isPro : Bool) :
    RetryOutcome α × Nat :=
  retryLoopPart3 op (maxRetriesPart3 isPro) (maxRetriesPart3 isPro) 0

/-- An operation that raises a transient 503 error on every invocation, with
per-attempt messages so the identity of the re-raised error is visible. -/
def alwaysOverloaded : Nat → Except GError Unit := fun i =>
  .error { status := some 503,
           msg := match i with
                  | 0 => "overloaded-0"
                  | 1 => "overloaded-1"
                  | _ => "overloaded-later" }

/-- C1: for an operation raising a transient (retryable) error on every
invocation, the Index variant of the retry controller (maxRetries = 3)
invokes it exactly 3 times and re-raises the last observed error with its
status code preserved, exactly as the claim states; the Part3 variant,
however, also invokes it 3 times (non-pro tier) but then falls off the end
of its loop and returns no value at all — the last error is swallowed
instead of re-raised, contradicting the claim for that variant. -/
theorem c1_retry_exhaustion :
    callGeminiWithRetryIndex alwaysOverloaded false =
      (.raised { status := some 503, msg := "overloaded-later" }, 3) ∧
    callGeminiWithRetryPart3 alwaysOverloaded false = (.noValue, 3) := by
  constructor <;> rfl

/-- C2: for every operation whose first invocation raises a non-retryable
error (status outside the 503/429/500 set of the Index controller), the
retry loop invokes the operation exactly once and immediately re-raises that
error, for every configured attempt budget of at least one. -/
theorem c2_fatal_short_circuit {α : Type} (op : Nat → Except GError α)
    (maxRetries : Nat) (e : GError) (hmax : 1 ≤ maxRetries)
    (h0 : op 0 = .error e) (hnr : retryableIndex e = false) :
    retryLoopIndex op maxRetries maxRetries 0 = (.raised e, 1) := by
  obtain ⟨m, rfl⟩ : ∃ m, maxRetries = m + 1 := ⟨maxRetries - 1, by omega⟩
  rw [retryLoopIndex, h0]
  by_cases hm : (0 : Nat) = m + 1 - 1 <;> simp [hm, hnr]

/-- Witness for C2: a 400 Bad Request on the first call, with the Index
controller's configured budget of 3, yields exactly one invocation and the
same error re-raised. -/
theorem c2_fatal_short_circuit_witness :
    retryLoopIndex
        (fun _ => (.error { status := some 400, msg := "BAD_REQUEST" } :
          Except GError Unit)) 3 3 0 =
      (.raised { status := some 400, msg := "BAD_REQUEST" }, 1) :=
  c2_fatal_short_circuit _ 3 _ (by decide) rfl (by decide)

/-- C9 counterexample: in the Index variant (src/index.js lines 436-438) the
attempt budget is the constant 3 for both tiers, so the pro tier does not
receive a strictly larger maximum number of attempts there. -/
theorem c9_counterexample :
    maxRetriesIndex true = 3 ∧ maxRetriesIndex false = 3 ∧
    ¬ maxRetriesIndex true > maxRetriesIndex false := by decide

/-- C9 amended: the pro tier receives a strictly larger base delay in both
retry controllers (5000 vs 2000 ms), and a strictly larger attempt budget
only in the Part3 controller (6 vs 3); the Index controller gives both tiers
the same budget of 3. -/
theorem c9_amended :
    baseDelayIndex true > baseDelayIndex false ∧
    baseDelayPart3 true > baseDelayPart3 false ∧
    maxRetriesPart3 true > maxRetriesPart3 false ∧
    maxRetriesIndex true = maxRetriesIndex false := by decide

/-! ## Job lifecycle and the /process endpoints

The worker endpoints are modelled per invocation. Store and blob operations
are external collaborators; the model records the observable effects the
claims speak about: status updates applied to the job's row in `ai_jobs`
(listing each update whose WHERE clause matched), refund RPC calls, the HTTP
response code, and how many times a job handler (`generateImage` /
`analyzeMaterial` / ...) was invoked. The handler itself is opaque: its
outcome is a parameter `h : Except GError Unit` (the success payload is not
relevant to any claim and is elided). Store writes other than the guarded
cancel always match their id-keyed WHERE clause and are modelled as applied.
-/

/-- Job status column of `ai_jobs`. -/
inductive JobStatus where
  | pending
  | processing
  | completed
  | failed
  | cancelled
deriving DecidableEq

/-- The fields of a job row that the worker control flow reads or writes.
`input` and `result` are opaque payloads consumed only by the handler and are
elided; `cost` is the field the R2 variant refunds, `credits_used` the one
the Index variant refunds. -/
structure Job where
  id : Nat
  type : String
  status : JobStatus
  error : Option String
  user_id : Nat
  credits_used : Int
  cost : Int
deriving DecidableEq

/-- Terminal statuses of the job lifecycle. -/
def isTerminal : JobStatus → Bool
  | .completed => true
  | .failed => true
  | .cancelled => true
  | _ => false

/-- Observable effects of one compensation (catch-block) run: the job row
afterwards, the HTTP response code, the status updates that matched their
WHERE clause, and the refund RPC calls `(user_id, amount)` issued. -/
structure CompLog where
  row : Job
  response : Nat
  writes : List JobStatus
  refunds : List (Nat × Int)
deriving DecidableEq

/-- Observable effects of one full `/process` invocation. `row` is the job's
record after the invocation (`none` when no job was involved);
`handlerCalls` counts invocations of the job handler. -/
structure AttemptLog where
  row : Option Job
  response : Nat
  writes : List JobStatus
  refunds : List (Nat × Int)
  handlerCalls : Nat
deriving DecidableEq

/-- Outcome of the claim step `supabase.rpc("claim_next_ai_job")`: the rpc
reported an error, returned null data (queue empty), or returned a freshly
claimed job row. -/
inductive ClaimOutcome where
  | storeError
  | empty
  | claimed : Job → ClaimOutcome
deriving DecidableEq

/-- The catch block of src/index.js lines 87-137, given the job row `j` as it
currently stands in the store and the caught error `e`. On a 503 the cancel
update (lines 99-108) carries both `.eq("id", job.id)` and
`.eq("status", "processing")`, so it changes the row only while the status is
still `processing`; the refund rpc (lines 116-119) runs only when that
guarded update returned a row, and passes `job.credits_used` with no check of
its sign. Any other error writes status `failed` with the error text. -/
def compensateIndex (j : Job) (e : GError) : CompLog :=
  if e.status = some 503 then
    if j.status = JobStatus.processing then
      { row := { j with
                   status := .cancelled,
                   error := some "Model overloaded — credits refunded" },
        response := 200, writes := [.cancelled],
        refunds := [(j.user_id, j.credits_used)] }
    else
      { row := j, response := 200, writes := [], refunds := [] }
  else
    { row := { j with status := .failed, error := some e.msg },
      response := 500, writes := [.failed], refunds := [] }

/-- The catch block of src/unnamed/part_005 lines 75-107: on a 503 the cancel
update is keyed by id only (there is no `.eq("status","processing")` guard)
and the refund rpc is called unconditionally right after it. -/
def compensatePart5 (j : Job) (e : GError) : CompLog :=
  if e.status = some 503 then
    { row := { j with
                 status := .cancelled,
                 error := some "Model overloaded — credits refunded" },
      response := 200, writes := [.cancelled],
      refunds := [(j.user_id, j.credits_used)] }
  else
    { row := { j with status := .failed, error := some e.msg },
      response := 500, writes := [.failed], refunds := [] }

/-- Refund calls issued by two successive runs of a compensation handler on
the same job row with the same error — duplicate failure handling of one
job. -/
def doubleCompRefunds (comp : Job → GError → CompLog) (j : Job) (e : GError) :
    List (Nat × Int) :=
  (comp j e).refunds ++ (comp (comp j e).row e).refunds

/-- Dispatch step of src/index.js line 67: any type other than
"generate-image" throws UNKNOWN_JOB_TYPE before the handler runs. Returns
the propagated outcome and the number of handler invocations. -/
def dispatchIndex (j : Job) (h : Except GError Unit) :
    Except GError Unit × Nat :=
  if j.type = "generate-image" then (h, 1)
  else (.error { status := none, msg := "UNKNOWN_JOB_TYPE" }, 0)

/-- Execution of src/index.js lines 64-137 for a job already claimed:
dispatch, then on success the completed update keyed by id (lines 76-82) and
a 200 response; on any thrown error the catch block `compensateIndex`. -/
def runClaimedIndex (j : Job) (h : Except GError Unit) : AttemptLog :=
  match dispatchIndex j h with
  | (.ok _, n) =>
      { row := some { j with status := .completed }, response := 200,
        writes := [.completed], refunds := [], handlerCalls := n }
  | (.error e, n) =>
      let c := compensateIndex j e
      { row := some c.row, response := c.response, writes := c.writes,
        refunds := c.refunds, handlerCalls := n }

/-- The whole `/process` handler of src/index.js lines 45-139: a claim-step
error answers 500 before anything else, null data answers 204, and a claimed
job runs `runClaimedIndex`. `h` gives the handler outcome for the claimed
job. -/
def processIndex (c : ClaimOutcome) (h : Job → Except GError Unit) :
    AttemptLog :=
  match c with
  | .storeError =>
      { row := none, response := 500, writes := [], refunds := [],
        handlerCalls := 0 }
  | .empty =>
      { row := none, response := 204, writes := [], refunds := [],
        handlerCalls := 0 }
  | .claimed j => runClaimedIndex j (h j)

/-- Dispatch step of src/unnamed/part_003 lines 58-60: two registered
handlers, anything else throws UNSUPPORTED. -/
def dispatchPart3 (j : Job) (h : Except GError Unit) :
    Except GError Unit × Nat :=
  if j.type = "generate-image" ∨ j.type = "analyze-material" then (h, 1)
  else (.error { status := none, msg := "UNSUPPORTED" }, 0)

/-- Execution of src/unnamed/part_003 lines 55-70 for a claimed job: on
success the completed update and 200; on any caught error a single failed
update (line 68) and 500 — there is no cancel/refund path in this variant. -/
def runClaimedPart3 (j : Job) (h : Except GError Unit) : AttemptLog :=
  match dispatchPart3 j h with
  | (.ok _, n) =>
      { row := some { j with status := .completed }, response := 200,
        writes := [.completed], refunds := [], handlerCalls := n }
  | (.error e, n) =>
      { row := some { j with status := .failed, error := some e.msg },
        response := 500, writes := [.failed], refunds := [],
        handlerCalls := n }

/-- The `/process` handler of src/unnamed/part_003 lines 46-71. The claim
step (line 51) destructures only `data` out of the rpc result — the `error`
field is never read — and a store-access error leaves `data` null, so it is
answered 204 exactly like an empty queue. -/
def processPart3 (c : ClaimOutcome) (h : Job → Except GError Unit) :
    AttemptLog :=
  match c with
  | .storeError =>
      { row := none, response := 204, writes := [], refunds := [],
        handlerCalls := 0 }
  | .empty =>
      { row := none, response := 204, writes := [], refunds := [],
        handlerCalls := 0 }
  | .claimed j => runClaimedPart3 j (h j)

/-- Execution of src/index.js lines 474-504 (the R2 variant) for a claimed
job: dispatch to generate-image or analyze-material (anything else throws
UNSUPPORTED), completed update on success; the catch (lines 486-504) marks
the job failed and then calls the refund rpc with `job.cost` whenever
`job.cost && job.cost > 0`, for every kind of error. -/
def runClaimedR2 (j : Job) (h : Except GError Unit) : AttemptLog :=
  match dispatchPart3 j h with
  | (.ok _, n) =>
      { row := some { j with status := .completed }, response := 200,
        writes := [.completed], refunds := [], handlerCalls := n }
  | (.error e, n) =>
      { row := some { j with status := .failed, error := some e.msg },
        response := 500, writes := [.failed],
        refunds := if j.cost > 0 then [(j.user_id, j.cost)] else [],
        handlerCalls := n }

/-- The push-mode `/process` of src/unnamed/part_004 lines 46-110. `body` is
the job_id of the request, `lookup` the row the select-by-id returned, `h`
the handler outcome. A missing job_id answers 400 and a failed lookup 404,
both before any update; otherwise the row is set to `processing`
unconditionally (lines 63-66, with no check of its current status), the type
is dispatched over three registered handlers, and completed/failed is
written. No refund rpc exists in this variant. -/
def processPush4 (body : Option Nat) (lookup : Option Job)
    (h : Except GError Unit) : AttemptLog :=
  match body with
  | none =>
      { row := none, response := 400, writes := [], refunds := [],
        handlerCalls := 0 }
  | some _ =>
    match lookup with
    | none =>
        { row := none, response := 404, writes := [], refunds := [],
          handlerCalls := 0 }
    | some j =>
      let d : Except GError Unit × Nat :=
        if j.type = "generate-image" ∨ j.type = "generate-video" ∨
            j.type = "analyze-material" then (h, 1)
        else (.error { status := none, msg := "UNKNOWN_JOB_TYPE" }, 0)
      match d with
      | (.ok _, n) =>
          { row := some { j with status := .completed }, response := 200,
            writes := [.processing, .completed], refunds := [],
            handlerCalls := n }
      | (.error e, n) =>
          { row := some { j with status := .failed, error := some e.msg },
            response := 500, writes := [.processing, .failed], refunds := [],
            handlerCalls := n }

/-- The push-mode `/process` of src/unnamed/part_006 lines 114-168: same
shape as part_004 but with only the generate-image handler registered, and
the lookup destructures only `data` (a store error reads as a null row and is
answered 404 as well). -/
def processPush6 (body : Option Nat) (lookup : Option Job)
    (h : Except GError Unit) : AttemptLog :=
  match body with
  | none =>
      { row := none, response := 400, writes := [], refunds := [],
        handlerCalls := 0 }
  | some _ =>
    match lookup with
    | none =>
        { row := none, response := 404, writes := [], refunds := [],
          handlerCalls := 0 }
    | some j =>
      let d : Except GError Unit × Nat :=
        if j.type = "generate-image" then (h, 1)
        else (.error { status := none, msg := "UNKNOWN_JOB_TYPE" }, 0)
      match d with
      | (.ok _, n) =>
          { row := some { j with status := .completed }, response := 200,
            writes := [.processing, .completed], refunds := [],
            handlerCalls := n }
      | (.error e, n) =>
          { row := some { j with status := .failed, error := some e.msg },
            response := 500, writes := [.processing, .failed], refunds := [],
            handlerCalls := n }

/-- A transient 503 overload error. -/
def err503 : GError := { status := some 503, msg := "overloaded" }

/-- A fatal 400 backend error. -/
def err400 : GError := { status := some 400, msg := "INVALID_ARGUMENT" }

/-- A freshly claimed job whose recorded cost and credits are zero. -/
def jobCredZero : Job :=
  { id := 1, type := "generate-image", status := .processing, error := none,
    user_id := 7, credits_used := 0, cost := 0 }

/-- A freshly claimed job with 5 recorded credits of cost. -/
def jobCostFive : Job :=
  { id := 2, type := "generate-image", status := .processing, error := none,
    user_id := 7, credits_used := 5, cost := 5 }

/-- A job already in the terminal status completed. -/
def jobDone : Job :=
  { id := 3, type := "generate-image", status := .completed, error := none,
    user_id := 7, credits_used := 5, cost := 5 }

/-- A freshly claimed job whose declared type is registered in no variant's
dispatcher, so execution fails at the dispatch step. -/
def jobVideo : Job :=
  { id := 4, type := "generate-video", status := .processing, error := none,
    user_id := 7, credits_used := 5, cost := 5 }

/-- C3 counterexample: a claimed job with zero recorded credits that dies on
a 503 still gets the refund rpc called (with amount 0) once the guarded
cancel succeeds — the code has no positive-cost check on this path, so a
refund is not issued "only if a positive cost is recorded". -/
theorem c3_counterexample :
    (runClaimedIndex jobCredZero (.error err503)).refunds = [(7, 0)] ∧
    ¬ jobCredZero.credits_used > 0 := by
  exact ⟨rfl, by decide⟩

/-- C3 amended: for every claimed job (status still processing, type
generate-image) whose execution raises a 503-classified error, the worker
cancels the job via the status=processing guarded update with the
explanatory message and calls the refund rpc with `job.credits_used`,
regardless of whether the recorded cost is positive. -/
theorem c3_amended (j : Job) (e : GError)
    (hst : j.status = .processing) (hty : j.type = "generate-image")
    (he : e.status = some 503) :
    runClaimedIndex j (.error e) =
      { row := some { j with
                        status := .cancelled,
                        error := some "Model overloaded — credits refunded" },
        response := 200, writes := [.cancelled],
        refunds := [(j.user_id, j.credits_used)], handlerCalls := 1 } := by
  simp [runClaimedIndex, dispatchIndex, compensateIndex, hty, hst, he]

/-- Witness for C3 amended at a concrete overloaded job. -/
theorem c3_amended_witness :
    runClaimedIndex jobCostFive (.error err503) =
      { row := some { jobCostFive with
                        status := .cancelled,
                        error := some "Model overloaded — credits refunded" },
        response := 200, writes := [.cancelled],
        refunds := [(7, 5)], handlerCalls := 1 } :=
  c3_amended jobCostFive err503 rfl rfl rfl

/-- C4 counterexample: in the R2 variant a fatal 400 error on a job with a
recorded cost of 5 marks the job failed and additionally issues a refund —
the claim's "does not issue any refund" fails on this cited variant. -/
theorem c4_counterexample :
    (runClaimedR2 jobCostFive (.error err400)).refunds = [(7, 5)] ∧
    err400.status ≠ some 503 := by
  exact ⟨rfl, by decide⟩

/-- C4 amended: whenever a claimed job's execution terminates with an error
not classified as transient-exhausted (status not 503) — a fatal backend
error propagated by the handler or an unknown-job-type error raised by the
dispatch step itself — the first index.js variant marks the job failed with
that error's text and issues no refund, while the R2 variant (src/index.js
lines 486-504, src/unnamed/part_002) marks the job failed and additionally
refunds `job.cost` exactly when a positive cost is recorded. The error the
attempt terminates with is exactly the error component of the variant's
dispatch outcome. -/
theorem c4_amended (j : Job) (h : Except GError Unit) (e : GError)
    (he : e.status ≠ some 503) :
    ((dispatchIndex j h).1 = .error e →
      runClaimedIndex j h =
        { row := some { j with status := .failed, error := some e.msg },
          response := 500, writes := [.failed], refunds := [],
          handlerCalls := (dispatchIndex j h).2 }) ∧
    ((dispatchPart3 j h).1 = .error e →
      runClaimedR2 j h =
        { row := some { j with status := .failed, error := some e.msg },
          response := 500, writes := [.failed],
          refunds := if j.cost > 0 then [(j.user_id, j.cost)] else [],
          handlerCalls := (dispatchPart3 j h).2 }) := by
  constructor
  · intro hd
    cases hdd : dispatchIndex j h with
    | mk d n =>
      rw [hdd] at hd
      simp only at hd
      subst hd
      simp [runClaimedIndex, hdd, compensateIndex, he]
  · intro hd
    cases hdd : dispatchPart3 j h with
    | mk d n =>
      rw [hdd] at hd
      simp only at hd
      subst hd
      simp [runClaimedR2, hdd]

/-- Witness for C4 amended: a fatal 400 backend error on a generate-image
job (both variants), and an unknown-job-type dispatch error on a
generate-video job (index.js variant, handler never invoked). -/
theorem c4_amended_witness :
    runClaimedIndex jobCostFive (.error err400) =
      { row := some { jobCostFive with
                        status := .failed,
                        error := some "INVALID_ARGUMENT" },
        response := 500, writes := [.failed], refunds := [],
        handlerCalls := 1 } ∧
    runClaimedR2 jobCostFive (.error err400) =
      { row := some { jobCostFive with
                        status := .failed,
                        error := some "INVALID_ARGUMENT" },
        response := 500, writes := [.failed], refunds := [(7, 5)],
        handlerCalls := 1 } ∧
    runClaimedIndex jobVideo (.ok ()) =
      { row := some { jobVideo with
                        status := .failed,
                        error := some "UNKNOWN_JOB_TYPE" },
        response := 500, writes := [.failed], refunds := [],
        handlerCalls := 0 } :=
  ⟨(c4_amended jobCostFive (.error err400) err400 (by decide)).1 rfl,
   (c4_amended jobCostFive (.error err400) err400 (by decide)).2 rfl,
   (c4_amended jobVideo (.ok ())
      { status := none, msg := "UNKNOWN_JOB_TYPE" } (by decide)).1 rfl⟩

/-- C5 counterexample: in the part_005 variant the cancel update has no
compare-and-set guard and the refund rpc is unconditional, so two
compensation attempts on the same overloaded job issue two refund calls. -/
theorem c5_counterexample :
    (doubleCompRefunds compensatePart5 jobCostFive err503).length = 2 := rfl

/-- C5 amended: the index.js compensator does enforce refund-once — for
every job row and error, two successive compensation runs issue at most one
refund call, because the cancel update is guarded on status = processing and
the refund only follows a guarded update that changed the row; the part_005
variant lacks this guard and can double-refund. -/
theorem c5_amended (j : Job) (e : GError) :
    (doubleCompRefunds compensateIndex j e).length ≤ 1 := by
  unfold doubleCompRefunds compensateIndex
  by_cases he : e.status = some 503
  · by_cases hs : j.status = JobStatus.processing <;> simp [he, hs]
  · simp [he]

/-- C6: for every freshly claimed job, exactly one terminal status write is
issued per attempt: the writes list of the index.js endpoint is a singleton
of completed, failed or cancelled, it is [completed] exactly on the success
path, and the part_003 endpoint likewise issues exactly one write — never
both a success and a failure terminal status. -/
theorem c6_single_terminal_write (j : Job) (h : Except GError Unit)
    (hst : j.status = .processing) :
    ((runClaimedIndex j h).writes = [JobStatus.completed] ∨
     (runClaimedIndex j h).writes = [JobStatus.failed] ∨
     (runClaimedIndex j h).writes = [JobStatus.cancelled]) ∧
    ((runClaimedIndex j h).writes = [JobStatus.completed] ↔
       (j.type = "generate-image" ∧ h.isOk = true)) ∧
    (runClaimedPart3 j h).writes.length = 1 := by
  by_cases hty : j.type = "generate-image"
  · cases h with
    | ok u =>
        simp [runClaimedIndex, dispatchIndex, runClaimedPart3, dispatchPart3,
              hty, Except.isOk, Except.toBool]
    | error e =>
        by_cases he : e.status = some 503 <;>
          simp [runClaimedIndex, dispatchIndex, compensateIndex,
                runClaimedPart3, dispatchPart3, hty, hst, he, Except.isOk,
                Except.toBool]
  · cases h with
    | ok u =>
        by_cases hty2 : j.type = "analyze-material" <;>
          simp [runClaimedIndex, dispatchIndex, compensateIndex,
                runClaimedPart3, dispatchPart3, hty, hty2, Except.isOk,
                Except.toBool]
    | error e =>
        by_cases hty2 : j.type = "analyze-material" <;>
          simp [runClaimedIndex, dispatchIndex, compensateIndex,
                runClaimedPart3, dispatchPart3, hty, hty2, Except.isOk,
                Except.toBool]

/-- Witness for C6 on the happy path of a concrete claimed job. -/
theorem c6_single_terminal_write_witness :
    (runClaimedIndex jobCostFive (.ok ())).writes = [JobStatus.completed] :=
  (c6_single_terminal_write jobCostFive (.ok ()) rfl).2.1.mpr ⟨rfl, rfl⟩

/-- C7 counterexample: re-submitting a job that is already completed to the
push-mode endpoint re-runs the handler (handlerCalls = 1) and rewrites its
status — there is no idempotency guard on terminal states. -/
theorem c7_counterexample :
    jobDone.status = JobStatus.completed ∧
    (processPush4 (some jobDone.id) (some jobDone) (.ok ())).handlerCalls
      = 1 ∧
    (processPush4 (some jobDone.id) (some jobDone) (.ok ())).writes =
      [JobStatus.processing, JobStatus.completed] := by
  exact ⟨rfl, rfl, rfl⟩

/-- C7 amended: in push mode the worker re-processes any request whose
job_id resolves to a row, regardless of the row's current status (terminal
or not): it unconditionally sets the row to processing and runs the handler
once; no re-credit happens only because the push-mode variants issue no
refunds at all. -/
theorem c7_amended (j : Job) (h : Except GError Unit)
    (hty : j.type = "generate-image") :
    (processPush4 (some j.id) (some j) h).handlerCalls = 1 ∧
    (processPush6 (some j.id) (some j) h).handlerCalls = 1 ∧
    (processPush4 (some j.id) (some j) h).refunds = [] ∧
    (processPush6 (some j.id) (some j) h).refunds = [] := by
  cases h <;> simp [processPush4, processPush6, hty]

/-- Witness for C7 amended at a job already completed. -/
theorem c7_amended_witness :
    (processPush4 (some jobDone.id) (some jobDone) (.ok ())).handlerCalls
      = 1 ∧
    (processPush6 (some jobDone.id) (some jobDone) (.ok ())).handlerCalls
      = 1 ∧
    (processPush4 (some jobDone.id) (some jobDone) (.ok ())).refunds = [] ∧
    (processPush6 (some jobDone.id) (some jobDone) (.ok ())).refunds = [] :=
  c7_amended jobDone (.ok ()) rfl

/-- C8 counterexample: in the part_003 variant a store-access error at the
claim step is answered 204 with no further effects — observationally
identical to the empty queue, not the 500 the claim requires. -/
theorem c8_counterexample :
    (processPart3 ClaimOutcome.storeError (fun _ => .ok ())).response
      = 204 ∧
    processPart3 ClaimOutcome.storeError (fun _ => .ok ()) =
      processPart3 ClaimOutcome.empty (fun _ => .ok ()) := by
  exact ⟨rfl, rfl⟩

/-- C8 amended: the index.js endpoint distinguishes the two conditions — a
claim-step store error aborts with 500 and an empty queue answers 204, both
without further state changes — whereas the part_003 endpoint never reads
the rpc error field and answers 204 for a store error exactly as for an
empty queue. -/
theorem c8_amended (h : Job → Except GError Unit) :
    processIndex ClaimOutcome.storeError h =
      { row := none, response := 500, writes := [], refunds := [],
        handlerCalls := 0 } ∧
    processIndex ClaimOutcome.empty h =
      { row := none, response := 204, writes := [], refunds := [],
        handlerCalls := 0 } ∧
    processPart3 ClaimOutcome.storeError h =
      { row := none, response := 204, writes := [], refunds := [],
        handlerCalls := 0 } := by
  exact ⟨rfl, rfl, rfl⟩

/-- C10: in push mode, a request whose job_id matches no record is answered
404 with no status write, no handler invocation and no refund, in both
push-mode variants. -/
theorem c10_push_unknown_job (jid : Nat) (h : Except GError Unit) :
    processPush4 (some jid) none h =
      { row := none, response := 404, writes := [], refunds := [],
        handlerCalls := 0 } ∧
    processPush6 (some jid) none h =
      { row := none, response := 404, writes := [], refunds := [],
        handlerCalls := 0 } := by
  exact ⟨rfl, rfl⟩

end GeminiWorker
